import Mathlib

/-!
Verification development for the Irys S3-compatible API metadata layer.

The model below is a shallow embedding of the repository's SQLite-backed
mapping store (src/lib/database.js) and of the listing/object controllers
(src/controllers/s3Controller.js).

Modelling conventions:
- The `objects` table is a list of rows kept in rowid (insertion) order;
  AUTOINCREMENT rowids are tracked by `nextId`.
- `CURRENT_TIMESTAMP` has one-second resolution in SQLite; timestamps are
  passed in explicitly as natural numbers (seconds).
- `INSERT OR REPLACE` deletes every existing row that conflicts with a
  UNIQUE constraint of the inserted row (here only `irys_id` is UNIQUE;
  the fresh autoincrement id never conflicts) and then appends a fresh row
  whose defaulted columns (`last_modified`, `created_at`) are stamped with
  the current time.
- `SELECT ... WHERE bucket = ? AND key = ? AND is_deleted = 0` without an
  ORDER BY scans the `(bucket, key)` index, whose entries for equal
  `(bucket, key)` appear in rowid order, so `db.get` yields the row with
  the smallest rowid among the matches: the oldest matching row.
- SQLite `LIKE` is modelled with its default semantics: `%` matches any
  sequence, `_` matches one character, and ASCII letters compare
  case-insensitively.
- JavaScript numbers reaching the listing path are modelled as
  `Option Int` with `none` playing the role of `NaN`, together with the
  JS coercion rules used at each site (`Math.min`, `+ 1`, `>`,
  `Array.prototype.slice`).
-/

set_option maxRecDepth 16000

namespace IrysS3

/-- An Irys upload receipt; only its transaction id is consumed by the
metadata layer. -/
structure IrysReceipt where
  id : String
deriving DecidableEq, Repr

/-- One row of the `objects` table (src/lib/database.js, createTables). -/
structure ObjRow where
  rowid : Nat
  bucket : String
  key : String
  irys_id : String
  content_type : String
  size : Nat
  etag : String
  metadata : String
  last_modified : Nat
  created_at : Nat
  updated_at : Nat
  is_deleted : Bool
deriving DecidableEq, Repr

/-- The persistent database state: the `objects` table in rowid order, the
`buckets` table as the list of bucket names, and the next autoincrement
rowid. -/
structure DB where
  objects : List ObjRow
  buckets : List String
  nextId : Nat
deriving DecidableEq, Repr

/-- A freshly initialised database (initDatabase on a new file). -/
def emptyDB : DB := { objects := [], buckets := [], nextId := 1 }

/-- SQLite default LIKE matching on character lists: `%` matches any
sequence, `_` matches a single character, other characters match
ASCII-case-insensitively (Char.toLower folds only A-Z, exactly SQLite's
default behaviour without ICU). -/
def likeMatchF : Nat → List Char → List Char → Bool
  | 0, _, _ => false
  | _ + 1, [], [] => true
  | _ + 1, [], _ :: _ => false
  | f + 1, '%' :: ps, [] => likeMatchF f ps []
  | f + 1, '%' :: ps, c :: cs =>
    likeMatchF f ps (c :: cs) || likeMatchF f ('%' :: ps) cs
  | f + 1, '_' :: ps, _ :: cs => likeMatchF f ps cs
  | _ + 1, _ :: _, [] => false
  | f + 1, p :: ps, c :: cs => p.toLower == c.toLower && likeMatchF f ps cs

/-- LIKE matching with enough fuel: every recursive step of `likeMatchF`
shrinks the combined length of pattern and string by at least one, so a
fuel of that combined length plus one is never exhausted. -/
def likeMatch (p s : List Char) : Bool :=
  likeMatchF (p.length + s.length + 1) p s

/-- SQLite `value LIKE pattern` on strings. -/
def likeCond (pat s : String) : Bool := likeMatch pat.data s.data

/-- The row predicate of
`WHERE bucket = ? AND key = ? AND is_deleted = 0`. -/
def liveFor (bucket key : String) (r : ObjRow) : Bool :=
  r.bucket == bucket && r.key == key && !r.is_deleted

/-- ensureBucketExists: `INSERT OR IGNORE INTO buckets (name) VALUES (?)`. -/
def ensureBucketExists (st : DB) (bucketName : String) : DB :=
  if st.buckets.contains bucketName then st
  else { st with buckets := st.buckets ++ [bucketName] }

/-- ETag generation in storeObjectMapping (database.js line 104): the Irys
transaction id wrapped in double quotes. -/
def mkEtag (receipt : IrysReceipt) : String := "\"" ++ receipt.id ++ "\""

/-- The row inserted by storeObjectMapping's `INSERT OR REPLACE`:
explicit columns from the VALUES list, `updated_at` set to
CURRENT_TIMESTAMP explicitly, `last_modified` and `created_at` defaulted
to CURRENT_TIMESTAMP, `is_deleted` defaulted to 0, and a fresh
autoincrement rowid. -/
def newObjRow (st : DB) (bucket key : String) (receipt : IrysReceipt)
    (contentType : String) (size : Nat) (metadata : String) (now : Nat) :
    ObjRow :=
  { rowid := st.nextId
    bucket := bucket
    key := key
    irys_id := receipt.id
    content_type := contentType
    size := size
    etag := mkEtag receipt
    metadata := metadata
    last_modified := now
    created_at := now
    updated_at := now
    is_deleted := false }

/-- storeObjectMapping (database.js lines 96-126): ensure the bucket row
exists, then `INSERT OR REPLACE INTO objects ...`. The only UNIQUE
constraint on `objects` is `irys_id`, so REPLACE removes exactly the rows
sharing the new row's `irys_id` and appends the fresh row; rows for the
same `(bucket, key)` with a different `irys_id` are untouched. -/
def storeObjectMapping (st : DB) (bucket key : String)
    (receipt : IrysReceipt) (contentType : String) (size : Nat)
    (metadata : String) (now : Nat) : DB :=
  let st1 := ensureBucketExists st bucket
  { st1 with
    objects :=
      st1.objects.filter (fun r => r.irys_id != receipt.id) ++
        [newObjRow st1 bucket key receipt contentType size metadata now]
    nextId := st1.nextId + 1 }

/-- getObjectMapping (database.js lines 134-155): `db.get` on
`SELECT * FROM objects WHERE bucket = ? AND key = ? AND is_deleted = 0`,
which yields the matching row with the smallest rowid, or null. -/
def getObjectMapping (st : DB) (bucket key : String) : Option ObjRow :=
  (st.objects.filter (fun r => liveFor bucket key r)).head?

/-- deleteObjectMapping (database.js lines 163-177):
`UPDATE objects SET is_deleted = 1, updated_at = CURRENT_TIMESTAMP WHERE
bucket = ? AND key = ? AND is_deleted = 0`, returning `changes > 0`
together with the new state. -/
def deleteObjectMapping (st : DB) (bucket key : String) (now : Nat) :
    Bool × DB :=
  let changes := st.objects.countP (fun r => liveFor bucket key r)
  let objs := st.objects.map (fun r =>
    if liveFor bucket key r then
      { r with is_deleted := true, updated_at := now }
    else r)
  (decide (0 < changes), { st with objects := objs })

/-- The options object passed to listObjects; `maxKeys` is a JS number
(`none` standing for NaN). -/
structure ListOptions where
  pref : String
  marker : String
  maxKeys : Option Int
  delimiter : String
deriving DecidableEq, Repr

/-- JS `maxKeys > 0` (false on NaN). -/
def jsGtZero : Option Int → Bool
  | some n => decide (0 < n)
  | none => false

/-- The WHERE clause built by listObjects: bucket match, live rows only,
`key LIKE prefix-then-percent` only when the prefix is truthy (non-empty),
`key > marker` only when the marker is truthy. -/
def listWhere (bucket : String) (opts : ListOptions) (r : ObjRow) : Bool :=
  r.bucket == bucket && !r.is_deleted &&
    (opts.pref == "" || likeCond (opts.pref ++ "%") r.key) &&
    (opts.marker == "" || decide (opts.marker < r.key))

/-- Row comparison used to model `ORDER BY key` (BINARY collation:
byte-lexicographic, which agrees with Lean's String order). -/
def rowKeyLE (a b : ObjRow) : Prop := a.key ≤ b.key

instance : DecidableRel rowKeyLE := fun a b =>
  inferInstanceAs (Decidable (a.key ≤ b.key))

instance : IsTotal ObjRow rowKeyLE := ⟨fun a b => le_total a.key b.key⟩

instance : IsTrans ObjRow rowKeyLE :=
  ⟨fun _ _ _ hab hbc => le_trans hab hbc⟩

/-- listObjects (database.js lines 185-226): filter by bucket, liveness,
optional LIKE prefix and optional marker; `ORDER BY key`; `LIMIT maxKeys`
only when `maxKeys > 0` (so NaN, zero or negative maxKeys yield an
unlimited query). -/
def listObjects (st : DB) (bucket : String) (opts : ListOptions) :
    List ObjRow :=
  let sorted := List.insertionSort rowKeyLE
    (st.objects.filter (fun r => listWhere bucket opts r))
  if jsGtZero opts.maxKeys then
    sorted.take ((opts.maxKeys.getD 0).toNat)
  else sorted

/-- JS `parseInt(s, 10)`: skip leading whitespace, read an optional sign
and then the longest prefix of decimal digits; NaN (`none`) when no digit
is found. -/
def digitsPre : List Char → List Char
  | c :: cs => if c.isDigit then c :: digitsPre cs else []
  | [] => []

/-- Numeric value of a list of decimal digits. -/
def digitsVal (l : List Char) : Nat :=
  l.foldl (fun a c => a * 10 + (c.toNat - 48)) 0

/-- Leading-whitespace skipping performed by parseInt before reading the
number. -/
def skipWs : List Char → List Char
  | c :: cs =>
    if c = ' ' ∨ c = '\t' ∨ c = '\n' ∨ c = '\r' then skipWs cs else c :: cs
  | [] => []

/-- JS parseInt with radix 10, returning `none` for NaN. -/
def parseIntJs (s : String) : Option Int :=
  match skipWs s.data with
  | '-' :: rest =>
    match digitsPre rest with
    | [] => none
    | ds => some (-(digitsVal ds : Int))
  | '+' :: rest =>
    match digitsPre rest with
    | [] => none
    | ds => some ((digitsVal ds : Int))
  | cs =>
    match digitsPre cs with
    | [] => none
    | ds => some ((digitsVal ds : Int))

/-- JS `Math.min` on two numbers (NaN-propagating). -/
def jsMin : Option Int → Option Int → Option Int
  | some a, some b => some (min a b)
  | _, _ => none

/-- JS `n + 1` (NaN-propagating). -/
def jsAdd1 : Option Int → Option Int
  | some n => some (n + 1)
  | none => none

/-- JS `len > n` for a nonnegative length and a possibly-NaN number
(false on NaN). -/
def jsGtLen (len : Nat) : Option Int → Bool
  | some n => decide ((len : Int) > n)
  | none => false

/-- JS `arr.slice(0, e)`: negative `e` counts from the end, NaN coerces
to 0. -/
def jsSliceTo (l : List ObjRow) : Option Int → List ObjRow
  | some e => if 0 ≤ e then l.take e.toNat else l.take (l.length - (-e).toNat)
  | none => l.take 0

/-- One element of the `Contents` array produced by listObjectsV1. -/
structure ListEntry where
  key : String
  lastModified : Nat
  etag : String
  size : Nat
deriving DecidableEq, Repr

/-- The JSON response of listObjectsV1 (the fields the claims are about). -/
structure ListResp where
  name : String
  pref : String
  marker : String
  maxKeys : Option Int
  isTruncated : Bool
  contents : List ListEntry
  nextMarker : Option String
deriving DecidableEq, Repr

/-- Projection of a database row to a listing Contents entry. -/
def toEntry (r : ObjRow) : ListEntry :=
  { key := r.key, lastModified := r.last_modified, etag := r.etag,
    size := r.size }

/-- The JS TypeError raised by `returnObjects[returnObjects.length - 1].key`
when the page is empty, which the controller's catch converts into a 500
InternalError response. -/
def jsTypeError : String := "TypeError: cannot read key of undefined"

/-- listObjectsV1 (s3Controller.js lines 233-302):
`maxKeys = Math.min(parseInt(maxKeysParam, 10), 1000)`, a lookahead query
with `maxKeys + 1`, `isTruncated = objects.length > maxKeys`,
`returnObjects = isTruncated ? objects.slice(0, maxKeys) : objects`, and
`nextMarker = isTruncated ? returnObjects[returnObjects.length - 1].key :
null` (a TypeError when the page is empty); `NextMarker` is attached to
the response only when truthy (non-empty). -/
def listObjectsV1 (st : DB) (bucket pref marker maxKeysParam delim : String) :
    Except String ListResp :=
  let maxKeys := jsMin (parseIntJs maxKeysParam) (some 1000)
  let objects := listObjects st bucket
    { pref := pref, marker := marker, maxKeys := jsAdd1 maxKeys,
      delimiter := delim }
  let isTruncated := jsGtLen objects.length maxKeys
  let returnObjects := if isTruncated then jsSliceTo objects maxKeys
    else objects
  if isTruncated then
    match returnObjects.getLast? with
    | none => Except.error jsTypeError
    | some lastRow =>
      Except.ok
        { name := bucket, pref := pref, marker := marker,
          maxKeys := maxKeys, isTruncated := true,
          contents := returnObjects.map toEntry,
          nextMarker := if lastRow.key == "" then none
            else some lastRow.key }
  else
    Except.ok
      { name := bucket, pref := pref, marker := marker,
        maxKeys := maxKeys, isTruncated := false,
        contents := returnObjects.map toEntry,
        nextMarker := none }

/-- Outcome of the getObject controller before any gateway traffic: the
validation error, the 404 NoSuchKey response, or the resolved record used
to stream content. -/
inductive GetOutcome where
  | missingParam (error message : String)
  | notFound (error message : String)
  | found (row : ObjRow)
deriving DecidableEq, Repr

/-- getObject (s3Controller.js lines 111-131): parameter presence check,
then getObjectMapping; a null mapping yields the 404 NoSuchKey response
regardless of whether the key was soft-deleted or never written. -/
def getObject (st : DB) (bucket key : String) : GetOutcome :=
  if bucket == "" || key == "" then
    GetOutcome.missingParam "MissingParameter"
      "Bucket and Key parameters are required"
  else
    match getObjectMapping st bucket key with
    | none => GetOutcome.notFound "NoSuchKey"
        "The specified key does not exist"
    | some r => GetOutcome.found r

/-- deleteObject (s3Controller.js lines 187-227): parameter check, then a
lookup; a missing mapping short-circuits to 204, otherwise
deleteObjectMapping runs and 204 is returned as well. The pair is the
HTTP status and the resulting state. -/
def deleteObject (st : DB) (bucket key : String) (now : Nat) : Nat × DB :=
  if bucket == "" || key == "" then (400, st)
  else
    match getObjectMapping st bucket key with
    | none => (204, st)
    | some _ => (204, (deleteObjectMapping st bucket key now).2)

/-- State after uploading receipt r1 to ("b", "k") at second 5 on a fresh
database. -/
def cxSt1 : DB :=
  storeObjectMapping emptyDB "b" "k" ⟨"r1"⟩ "text/plain" 3 "md1" 5

/-- State after overwriting ("b", "k") with receipt r2 in the same clock
second. -/
def cxSt2 : DB :=
  storeObjectMapping cxSt1 "b" "k" ⟨"r2"⟩ "text/plain" 3 "md2" 5

/-- Number of live rows the objects table holds for a (bucket, key)
pair. -/
def countLive (st : DB) (bucket key : String) : Nat :=
  (st.objects.filter (fun r => liveFor bucket key r)).length

/-- last_modified of the row carrying a given Irys transaction id. -/
def lastModOf (st : DB) (iid : String) : Option Nat :=
  ((st.objects.filter (fun r => r.irys_id == iid)).map
    ObjRow.last_modified).head?

/-- State holding one live object with key "ab" in bucket "b". -/
def likeSt : DB := storeObjectMapping emptyDB "b" "ab" ⟨"q1"⟩ "ct" 2 "m" 1

/-- The single row of likeSt. -/
def likeRow : ObjRow :=
  { rowid := 1, bucket := "b", key := "ab", irys_id := "q1",
    content_type := "ct", size := 2, etag := "\"q1\"", metadata := "m",
    last_modified := 1, created_at := 1, updated_at := 1,
    is_deleted := false }

/-- Row number i of a bucket holding 1001 live objects. -/
def bulkRow (i : Nat) : ObjRow :=
  { rowid := i + 1, bucket := "b", key := "k" ++ toString i,
    irys_id := "t" ++ toString i, content_type := "ct", size := 1,
    etag := "\"t\"", metadata := "m", last_modified := 0, created_at := 0,
    updated_at := 0, is_deleted := false }

/-- A bucket populated with 1001 live objects. -/
def bulkDB : DB :=
  { objects := (List.range 1001).map bulkRow, buckets := ["b"],
    nextId := 1002 }

/-- Number of Contents records of a listing response (0 for the error
outcome). -/
def okLen : Except String ListResp → Nat
  | Except.ok r => r.contents.length
  | Except.error _ => 0

/-- Concrete successful response used to witness c5_page_bound_and_marker
(the listing of likeSt with max-keys "7"). -/
def c5wEntry : ListEntry :=
  { key := "ab", lastModified := 1, etag := "\"q1\"", size := 2 }

/-- The full response of that listing. -/
def c5wResp : ListResp :=
  { name := "b", pref := "", marker := "", maxKeys := some 7,
    isTruncated := false, contents := [c5wEntry], nextMarker := none }

/-- Concrete successful empty response used to witness
c6_maxkeys_zero_ok_empty. -/
def c6wResp : ListResp :=
  { name := "bk", pref := "", marker := "", maxKeys := some 0,
    isTruncated := false, contents := [], nextMarker := none }

/-- State reached by two writes to ("wb", "wk") at seconds 2 and then 3
with distinct receipts, witnessing c7_last_modified_monotone. -/
def c7wSt : DB :=
  storeObjectMapping (storeObjectMapping emptyDB "wb" "wk" ⟨"wa"⟩ "ct" 1
    "m1" 2) "wb" "wk" ⟨"wc"⟩ "ct" 1 "m2" 3

end IrysS3

namespace IrysS3

/-- C1: overwriting a live key does not supersede the previous live
record: after storing receipt r1 and then receipt r2 for the same
("b", "k"), the objects table holds two simultaneously live rows for that
pair, because the INSERT OR REPLACE only conflicts on the irys_id UNIQUE
constraint, never on (bucket, key). -/
theorem c1_two_live_rows_after_overwrite : countLive cxSt2 "b" "k" = 2 := by
  decide

/-- C2: the ETag assigned at commit time is the quoted backend receipt id,
a function of the receipt alone: two uploads with identical payload
parameters (content type "ct", size 3, metadata "m") but different receipt
ids are committed with different ETags, each equal to the quoted receipt
id. -/
theorem c2_etag_is_receipt_id_eval :
    (getObjectMapping (storeObjectMapping emptyDB "b" "k" ⟨"rA"⟩ "ct" 3
      "m" 0) "b" "k").map ObjRow.etag = some (mkEtag ⟨"rA"⟩) ∧
    (getObjectMapping (storeObjectMapping emptyDB "c" "k" ⟨"rB"⟩ "ct" 3
      "m" 0) "c" "k").map ObjRow.etag = some (mkEtag ⟨"rB"⟩) ∧
    mkEtag ⟨"rA"⟩ ≠ mkEtag ⟨"rB"⟩ := by
  decide

/-- C3: read-your-write fails on overwrite: immediately after committing
receipt r2 for ("b", "k") (a key that already had a live record for
receipt r1), getObjectMapping — which is also the value storeObjectMapping
itself returns — yields the stale record of receipt r1, not the
just-committed one. -/
theorem c3_get_returns_old_record_eval :
    (getObjectMapping cxSt2 "b" "k").map ObjRow.irys_id = some "r1" ∧
    (getObjectMapping cxSt2 "b" "k").map ObjRow.irys_id ≠ some "r2" := by
  decide

/-- C6 counterexample: a listing with max-keys 0 against a bucket holding
one matching key does not complete: the page is empty while isTruncated
is true, so the controller's NextMarker computation dereferences an
undefined element and the request fails with the caught TypeError (HTTP
500 InternalError), instead of returning an empty truncated page. -/
theorem c6_maxkeys_zero_error_counterexample :
    listObjectsV1 cxSt1 "b" "" "" "0" "" = Except.error jsTypeError := by
  rfl

/-- C4 counterexample: listing is not a string-prefix filter when the
prefix contains a LIKE metacharacter. The bucket holds the single live key
"ab"; listing with prefix "a_" returns it even though "ab" does not start
with the string "a_", because the store matches keys with the SQL pattern
derived from the prefix followed by a percent sign, in which the
underscore is a single-character wildcard. -/
theorem c4_like_wildcard_counterexample :
    (listObjects likeSt "b"
      { pref := "a_", marker := "", maxKeys := some 10,
        delimiter := "" }).map ObjRow.key = ["ab"] ∧
    "a_".data.isPrefixOf "ab".data = false := by
  decide

/-- Unchanged objects under ensureBucketExists. -/
theorem ensureBucketExists_objects (st : DB) (b : String) :
    (ensureBucketExists st b).objects = st.objects := by
  unfold ensureBucketExists; split <;> rfl

/-- Decomposition of the listObjects WHERE clause into propositional
conditions. -/
theorem listWhere_iff (bucket : String) (opts : ListOptions) (r : ObjRow) :
    listWhere bucket opts r = true ↔
      r.bucket = bucket ∧ r.is_deleted = false ∧
      (opts.pref = "" ∨ likeCond (opts.pref ++ "%") r.key = true) ∧
      (opts.marker = "" ∨ opts.marker < r.key) := by
  simp [listWhere, Bool.and_eq_true, Bool.or_eq_true, beq_iff_eq,
    Bool.not_eq_true', decide_eq_true_eq, and_assoc]

/-- C4 (amended): the listing returns only live records of the requested
bucket whose key matches the SQLite LIKE pattern built from the prefix
(with percent and underscore acting as wildcards and ASCII letters
compared case-insensitively) and, when the marker is non-empty, whose key
is strictly greater than the marker; the result is in ascending key
order; and when the maxKeys option does not impose a limit (it is NaN,
zero or negative), every such record is returned. -/
theorem c4_listing_like_order_marker (st : DB) (bucket : String)
    (opts : ListOptions) :
    (∀ r ∈ listObjects st bucket opts,
      r.bucket = bucket ∧ r.is_deleted = false ∧
      (opts.pref ≠ "" → likeCond (opts.pref ++ "%") r.key = true) ∧
      (opts.marker ≠ "" → opts.marker < r.key)) ∧
    List.Sorted rowKeyLE (listObjects st bucket opts) ∧
    (jsGtZero opts.maxKeys = false →
      ∀ r ∈ st.objects, r.bucket = bucket → r.is_deleted = false →
        (opts.pref = "" ∨ likeCond (opts.pref ++ "%") r.key = true) →
        (opts.marker = "" ∨ opts.marker < r.key) →
        r ∈ listObjects st bucket opts) := by
  refine ⟨?_, ?_, ?_⟩
  · intro r hr
    have hmem : r ∈ st.objects.filter (fun x => listWhere bucket opts x) := by
      unfold listObjects at hr
      split at hr
      · exact (List.mem_insertionSort rowKeyLE).mp (List.mem_of_mem_take hr)
      · exact (List.mem_insertionSort rowKeyLE).mp hr
    have hw := (List.mem_filter.mp hmem).2
    obtain ⟨h1, h2, h3, h4⟩ := (listWhere_iff bucket opts r).mp hw
    exact ⟨h1, h2,
      fun hp => h3.resolve_left hp,
      fun hm => h4.resolve_left hm⟩
  · unfold listObjects
    split
    · exact (List.sorted_insertionSort rowKeyLE _).sublist
        (List.take_sublist _ _)
    · exact List.sorted_insertionSort rowKeyLE _
  · intro hmk r hr h1 h2 h3 h4
    unfold listObjects
    rw [if_neg (by simp [hmk])]
    exact (List.mem_insertionSort rowKeyLE).mpr
      (List.mem_filter.mpr ⟨hr, (listWhere_iff bucket opts r).mpr
        ⟨h1, h2, h3, h4⟩⟩)

/-- Witness for c4_listing_like_order_marker: on the concrete state likeSt
with an unlimited query, the completeness direction places the concrete
row in the listing. -/
theorem c4_listing_witness :
    likeRow ∈ listObjects likeSt "b"
      { pref := "a_", marker := "", maxKeys := none, delimiter := "" } :=
  (c4_listing_like_order_marker likeSt "b"
    { pref := "a_", marker := "", maxKeys := none, delimiter := "" }).2.2
    (by decide) likeRow (by decide) (by decide) (by decide)
    (Or.inr (by decide)) (Or.inl rfl)

/-- Every bulk row passes the trivial WHERE clause (bucket "b", live, no
prefix, no marker), for any maxKeys option. -/
theorem bulk_filter_all (mk : Option Int) :
    bulkDB.objects.filter (fun r => listWhere "b"
      { pref := "", marker := "", maxKeys := mk, delimiter := "" } r) =
      bulkDB.objects := by
  apply List.filter_eq_self.mpr
  intro a ha
  obtain ⟨i, _, rfl⟩ := List.mem_map.mp ha
  rfl

/-- With a maxKeys option that is not positive (NaN, zero or negative),
the bulk listing applies no LIMIT and yields all 1001 rows. -/
theorem bulk_list_len (mk : Option Int) (h : jsGtZero mk = false) :
    (listObjects bulkDB "b"
      { pref := "", marker := "", maxKeys := mk,
        delimiter := "" }).length = 1001 := by
  unfold listObjects
  rw [if_neg (by simp [h]), bulk_filter_all mk,
    List.length_insertionSort]
  simp [bulkDB]

/-- C5 counterexample: a caller-supplied max-keys of "x" parses to NaN,
`Math.min(NaN, 1000)` is NaN, the store-level guard `maxKeys > 0` is
false on NaN so no LIMIT is applied, and `objects.length > NaN` is false
so the page is not truncated: the request returns all 1001 records of the
bucket, exceeding the claimed engine-enforced ceiling of 1000. -/
theorem c5_nan_maxkeys_counterexample :
    1000 < okLen (listObjectsV1 bulkDB "b" "" "" "x" "") := by
  have hparse : parseIntJs "x" = none := rfl
  simp only [listObjectsV1, hparse, jsMin, jsAdd1, jsGtLen, okLen,
    Bool.false_eq_true, if_false, List.length_map]
  rw [bulk_list_len none rfl]
  omega

/-- C5 (amended): when the caller's max-keys value parses to a
nonnegative number n and the controller completes successfully, the page
never exceeds 1000 records (the lookahead query fetches at most
min(n,1000)+1 rows and the page is cut back to min(n,1000)); and whenever
the response is truncated, the page is nonempty, and the NextMarker is the
key of its last record (omitted only when that key is the empty
string). -/
theorem c5_page_bound_and_marker (st : DB) (b p m mkp d : String)
    (n : Int) (resp : ListResp)
    (hp : parseIntJs mkp = some n) (hn : 0 ≤ n)
    (hok : listObjectsV1 st b p m mkp d = Except.ok resp) :
    resp.contents.length ≤ 1000 ∧
    (resp.isTruncated = true →
      ∃ e, resp.contents.getLast? = some e ∧
        resp.nextMarker = (if e.key = "" then none else some e.key)) := by
  have hK0 : 0 ≤ min n 1000 := le_min hn (by norm_num)
  have hK1000 : min n 1000 ≤ 1000 := min_le_right _ _
  simp only [listObjectsV1, hp, jsMin, jsAdd1, jsGtLen,
    decide_eq_true_eq] at hok
  generalize hKdef : min n 1000 = K at hok hK0 hK1000
  by_cases htr :
    ((listObjects st b
      { pref := p, marker := m, maxKeys := some (K + 1),
        delimiter := d }).length : Int) > K
  · rw [if_pos htr, if_pos htr] at hok
    rw [show jsSliceTo (listObjects st b
        { pref := p, marker := m, maxKeys := some (K + 1),
          delimiter := d }) (some K) =
        (listObjects st b
          { pref := p, marker := m, maxKeys := some (K + 1),
            delimiter := d }).take K.toNat
      from by rw [jsSliceTo, if_pos hK0]] at hok
    cases hlast : (listObjects st b
        { pref := p, marker := m, maxKeys := some (K + 1),
          delimiter := d }).take K.toNat |>.getLast? with
    | none => rw [hlast] at hok; exact absurd hok (by simp)
    | some lastRow =>
      rw [hlast] at hok
      have hresp := (Except.ok.injEq _ _ ).mp hok.symm
      subst hresp
      constructor
      · simp only [List.length_map, List.length_take]
        have h1 : K.toNat ≤ 1000 := by omega
        exact le_trans (Nat.min_le_left _ _) h1
      · intro _
        refine ⟨toEntry lastRow, ?_, ?_⟩
        · rw [List.getLast?_map, hlast]; rfl
        · simp [toEntry, beq_iff_eq]
  · rw [if_neg htr, if_neg htr] at hok
    have hresp := (Except.ok.injEq _ _ ).mp hok.symm
    subst hresp
    refine ⟨?_, ?_⟩
    · simp only [List.length_map]
      omega
    · intro habs
      simp at habs

/-- Witness for c5_page_bound_and_marker at the concrete state likeSt with
max-keys "7". -/
theorem c5_page_bound_witness :
    c5wResp.contents.length ≤ 1000 ∧
    (c5wResp.isTruncated = true →
      ∃ e, c5wResp.contents.getLast? = some e ∧
        c5wResp.nextMarker = (if e.key = "" then none else some e.key)) :=
  c5_page_bound_and_marker likeSt "b" "" "" "7" "" 7 c5wResp rfl
    (by norm_num) (by rfl)

/-- C6 (amended): a listing with max-keys 0 completes successfully only
when no key matches, and then yields an empty page that is not truncated
and carries no continuation marker; when at least one key matches, the
controller instead fails with an internal TypeError (surfaced as a 500
InternalError), as shown by the counterexample. The store-level
listObjects itself never fails on any input content. -/
theorem c6_maxkeys_zero_ok_empty (st : DB) (b p m d : String)
    (resp : ListResp)
    (hok : listObjectsV1 st b p m "0" d = Except.ok resp) :
    resp.contents = [] ∧ resp.isTruncated = false ∧
      resp.nextMarker = none := by
  have hp : parseIntJs "0" = some 0 := rfl
  have hmin : min (0 : Int) 1000 = 0 := by norm_num
  simp only [listObjectsV1, hp, jsMin, jsAdd1, jsGtLen,
    decide_eq_true_eq, hmin, zero_add] at hok
  by_cases htr :
    ((listObjects st b
      { pref := p, marker := m, maxKeys := some 1,
        delimiter := d }).length : Int) > 0
  · rw [if_pos htr, if_pos htr] at hok
    rw [show jsSliceTo (listObjects st b
        { pref := p, marker := m, maxKeys := some 1,
          delimiter := d }) (some 0) = []
      from by rw [jsSliceTo, if_pos (by norm_num)]; simp] at hok
    exact absurd hok (by simp)
  · rw [if_neg htr, if_neg htr] at hok
    have hresp := (Except.ok.injEq _ _ ).mp hok.symm
    subst hresp
    have hlen : (listObjects st b
        { pref := p, marker := m, maxKeys := some 1,
          delimiter := d }).length = 0 := by omega
    refine ⟨?_, rfl, rfl⟩
    simp [List.length_eq_zero.mp hlen]

/-- Witness for c6_maxkeys_zero_ok_empty: a max-keys 0 listing of an
empty database completes successfully with an empty, untruncated,
markerless page. -/
theorem c6_maxkeys_zero_witness :
    c6wResp.contents = [] ∧ c6wResp.isTruncated = false ∧
      c6wResp.nextMarker = none :=
  c6_maxkeys_zero_ok_empty emptyDB "bk" "" "" "" c6wResp (by rfl)

/-- C7 counterexample: an overwrite performed in the same clock second as
the previous write (SQLite CURRENT_TIMESTAMP has one-second resolution)
assigns the new record a last_modified equal to — not strictly greater
than — the previous live record's last_modified. -/
theorem c7_same_second_counterexample :
    lastModOf cxSt2 "r1" = lastModOf cxSt2 "r2" ∧
    lastModOf cxSt2 "r2" = some 5 := by
  decide

/-- Decomposition of the liveFor row predicate into propositional
conditions. -/
theorem liveFor_iff (b k : String) (r : ObjRow) :
    liveFor b k r = true ↔
      r.bucket = b ∧ r.key = k ∧ r.is_deleted = false := by
  simp [liveFor, Bool.and_eq_true, beq_iff_eq, Bool.not_eq_true',
    and_assoc]

/-- A pointwise-identity map leaves a list unchanged. -/
theorem map_id_of_eq {α : Type} (l : List α) (f : α → α)
    (h : ∀ a ∈ l, f a = a) : l.map f = l := by
  induction l with
  | nil => rfl
  | cons a as ih =>
    simp only [List.map_cons, h a (List.mem_cons_self a as),
      ih (fun x hx => h x (List.mem_cons_of_mem a hx))]

/-- After deleteObjectMapping, no row of the store is live for the
deleted (bucket, key) pair. -/
theorem delete_kills_live (st : DB) (b k : String) (t : Nat) :
    ∀ r ∈ ((deleteObjectMapping st b k t).2).objects,
      liveFor b k r = false := by
  intro r hr
  simp only [deleteObjectMapping] at hr
  obtain ⟨a, ha, rfl⟩ := List.mem_map.mp hr
  by_cases hp : liveFor b k a = true
  · rw [if_pos hp]
    simp [liveFor]
  · rw [if_neg hp]
    exact Bool.not_eq_true _ |>.mp hp

/-- Deleting a (bucket, key) with no live row returns false and leaves
the state unchanged. -/
theorem delete_noop_of_no_live (st : DB) (b k : String) (t : Nat)
    (h : ∀ r ∈ st.objects, liveFor b k r = false) :
    deleteObjectMapping st b k t = (false, st) := by
  have hcount : st.objects.countP (fun r => liveFor b k r) = 0 :=
    List.countP_eq_zero.mpr (fun a ha => by simp [h a ha])
  have hobj : st.objects.map (fun r =>
      if liveFor b k r then { r with is_deleted := true, updated_at := t }
      else r) = st.objects :=
    map_id_of_eq _ _ (fun a ha => by rw [if_neg (by simp [h a ha])])
  simp only [deleteObjectMapping, hcount, hobj]
  rfl

/-- C7 (amended): over successive writes to a key performed at
non-decreasing wall-clock seconds, the assigned last_modified values are
non-decreasing: after writing receipt r1 at second t1 and then receipt r2
at second t2 ≥ t1 (receipt ids distinct, as the backend guarantees), the
store holds the r1 record stamped t1 and the r2 record stamped t2, so the
newer record's last_modified is greater than or equal to — but, as the
counterexample shows, not necessarily strictly greater than — the older
record's; the older record is not superseded. -/
theorem c7_last_modified_monotone (st : DB) (b k ct1 ct2 md1 md2 : String)
    (r1 r2 : IrysReceipt) (sz1 sz2 t1 t2 : Nat)
    (hne : r1.id ≠ r2.id) (ht : t1 ≤ t2) :
    ∃ rowOld ∈ (storeObjectMapping (storeObjectMapping st b k r1 ct1 sz1
        md1 t1) b k r2 ct2 sz2 md2 t2).objects,
      rowOld.irys_id = r1.id ∧ rowOld.last_modified = t1 ∧
      ∃ rowNew ∈ (storeObjectMapping (storeObjectMapping st b k r1 ct1 sz1
          md1 t1) b k r2 ct2 sz2 md2 t2).objects,
        rowNew.irys_id = r2.id ∧ rowNew.last_modified = t2 ∧
        rowOld.last_modified ≤ rowNew.last_modified := by
  have hmem1 : newObjRow (ensureBucketExists st b) b k r1 ct1 sz1 md1 t1 ∈
      (storeObjectMapping st b k r1 ct1 sz1 md1 t1).objects :=
    List.mem_append_right _ (List.mem_singleton_self _)
  have hmem2 : newObjRow (ensureBucketExists st b) b k r1 ct1 sz1 md1 t1 ∈
      (storeObjectMapping (storeObjectMapping st b k r1 ct1 sz1 md1 t1)
        b k r2 ct2 sz2 md2 t2).objects := by
    simp only [storeObjectMapping, ensureBucketExists_objects]
    refine List.mem_append_left _ (List.mem_filter.mpr ⟨?_, ?_⟩)
    · simp only [storeObjectMapping, ensureBucketExists_objects] at hmem1
      exact hmem1
    · exact bne_iff_ne.mpr hne
  have hmem3 : newObjRow (ensureBucketExists (storeObjectMapping st b k r1
      ct1 sz1 md1 t1) b) b k r2 ct2 sz2 md2 t2 ∈
      (storeObjectMapping (storeObjectMapping st b k r1 ct1 sz1 md1 t1)
        b k r2 ct2 sz2 md2 t2).objects :=
    List.mem_append_right _ (List.mem_singleton_self _)
  exact ⟨_, hmem2, rfl, rfl, _, hmem3, rfl, rfl, ht⟩

/-- Witness for c7_last_modified_monotone on concrete, distinct write
seconds 2 and 3. -/
theorem c7_last_modified_witness :
    ∃ rowOld ∈ c7wSt.objects,
      rowOld.irys_id = "wa" ∧ rowOld.last_modified = 2 ∧
      ∃ rowNew ∈ c7wSt.objects,
        rowNew.irys_id = "wc" ∧ rowNew.last_modified = 3 ∧
        rowOld.last_modified ≤ rowNew.last_modified :=
  c7_last_modified_monotone emptyDB "wb" "wk" "ct" "ct" "m1" "m2"
    ⟨"wa"⟩ ⟨"wc"⟩ 1 1 2 3 (by decide) (by norm_num)

/-- C8: softDelete returns true exactly when a live record for the pair
existed; a second delete of the same pair returns false and leaves the
state unchanged; and the delete controller reports success (204) without
changing anything when no live record exists. -/
theorem c8_soft_delete_idempotent (st : DB) (b k : String) (t t2 : Nat) :
    ((deleteObjectMapping st b k t).1 = true ↔
      ∃ r ∈ st.objects,
        r.bucket = b ∧ r.key = k ∧ r.is_deleted = false) ∧
    deleteObjectMapping (deleteObjectMapping st b k t).2 b k t2 =
      (false, (deleteObjectMapping st b k t).2) ∧
    (b ≠ "" → k ≠ "" → getObjectMapping st b k = none →
      deleteObject st b k t = (204, st)) := by
  refine ⟨?_, ?_, ?_⟩
  · show decide (0 < st.objects.countP (fun r => liveFor b k r)) = true ↔ _
    simp only [decide_eq_true_eq, List.countP_pos_iff, liveFor_iff]
  · exact delete_noop_of_no_live _ b k t2 (delete_kills_live st b k t)
  · intro hb hk hget
    have hb2 : (b == "") = false := beq_eq_false_iff_ne.mpr hb
    have hk2 : (k == "") = false := beq_eq_false_iff_ne.mpr hk
    simp [deleteObject, hb2, hk2, hget]

/-- Witness for c8_soft_delete_idempotent: deleting a key that has no
live record on an empty database succeeds with 204 and changes
nothing. -/
theorem c8_soft_delete_witness :
    deleteObject emptyDB "wb" "wk" 7 = (204, emptyDB) :=
  (c8_soft_delete_idempotent emptyDB "wb" "wk" 7 8).2.2 (by decide)
    (by decide) rfl

/-- C9: after a soft delete of (b, k), the live lookup returns absent,
every listing of bucket b omits key k, and the retrieval controller's
outcome is literally the same as on a database where the key never
existed (the identical NoSuchKey 404 response). -/
theorem c9_delete_then_read (st : DB) (b k : String) (t : Nat)
    (opts : ListOptions) :
    getObjectMapping (deleteObjectMapping st b k t).2 b k = none ∧
    (∀ r ∈ listObjects (deleteObjectMapping st b k t).2 b opts,
      r.key ≠ k) ∧
    getObject (deleteObjectMapping st b k t).2 b k =
      getObject emptyDB b k := by
  have hdead := delete_kills_live st b k t
  have hget : getObjectMapping (deleteObjectMapping st b k t).2 b k =
      none := by
    unfold getObjectMapping
    rw [List.filter_eq_nil_iff.mpr (fun a ha => by simp [hdead a ha])]
    rfl
  refine ⟨hget, ?_, ?_⟩
  · intro r hr hkey
    have hmem : r ∈ ((deleteObjectMapping st b k t).2).objects.filter
        (fun x => listWhere b opts x) := by
      unfold listObjects at hr
      split at hr
      · exact (List.mem_insertionSort rowKeyLE).mp
          (List.mem_of_mem_take hr)
      · exact (List.mem_insertionSort rowKeyLE).mp hr
    obtain ⟨hmem2, hw⟩ := List.mem_filter.mp hmem
    obtain ⟨h1, h2, _, _⟩ := (listWhere_iff b opts r).mp hw
    have hlive : liveFor b k r = true :=
      (liveFor_iff b k r).mpr ⟨h1, hkey, h2⟩
    rw [hdead r hmem2] at hlive
    exact Bool.false_ne_true hlive
  · unfold getObject
    by_cases hbk : (b == "" || k == "") = true
    · rw [if_pos hbk, if_pos hbk]
    · rw [if_neg hbk, if_neg hbk, hget,
        show getObjectMapping emptyDB b k = none from rfl]

/-- Witness for c9_delete_then_read: after deleting ("b", "k") from the
two-live-row state, the live lookup is absent. -/
theorem c9_delete_then_read_witness :
    getObjectMapping (deleteObjectMapping cxSt2 "b" "k" 9).2 "b" "k" =
      none :=
  (c9_delete_then_read cxSt2 "b" "k" 9
    { pref := "", marker := "", maxKeys := some 5, delimiter := "" }).1

/-- C10: a commit whose receipt id is fresh (not the backend_receipt_id
of any existing record) leaves every record of every other (bucket, key)
pair unchanged: the rows outside the written pair are the same before and
after the write. -/
theorem c10_frame_fresh_receipt (st : DB) (b k ct md : String)
    (r : IrysReceipt) (sz t : Nat)
    (hfresh : ∀ row ∈ st.objects, row.irys_id ≠ r.id) :
    (storeObjectMapping st b k r ct sz md t).objects.filter
        (fun row => !(row.bucket == b && row.key == k)) =
      st.objects.filter
        (fun row => !(row.bucket == b && row.key == k)) := by
  have hkeep : st.objects.filter (fun row => row.irys_id != r.id) =
      st.objects :=
    List.filter_eq_self.mpr (fun a ha => bne_iff_ne.mpr (hfresh a ha))
  simp only [storeObjectMapping, ensureBucketExists_objects,
    List.filter_append, hkeep]
  simp [newObjRow]

/-- Witness for c10_frame_fresh_receipt: writing a fresh receipt to
("wb", "wk") on the one-row state preserves the rows of all other
pairs. -/
theorem c10_frame_witness :
    (storeObjectMapping cxSt1 "wb" "wk" ⟨"r9"⟩ "ct" 1 "m" 7).objects.filter
        (fun row => !(row.bucket == "wb" && row.key == "wk")) =
      cxSt1.objects.filter
        (fun row => !(row.bucket == "wb" && row.key == "wk")) :=
  c10_frame_fresh_receipt cxSt1 "wb" "wk" "ct" "m" ⟨"r9"⟩ 1 7 (by decide)

end IrysS3
